import Mathlib

/-
  Verification development for the pyfanotify permission-event monitor.

  The repository ships diagnostic and example scripts (deadlock_test.py,
  safe_permission_test.py, test_permission_events.py, examples/permission_events.py)
  that exercise an external fanotify binding.  The binding itself (constants,
  Fanotify, FanotifyClient, evt_to_str, response) is not part of the sources,
  so those operations are modelled from the specification; the event-handling
  loops of the scripts are embedded directly from the script sources.
-/

namespace Pyfanotify

/-- Modelled from the spec: the fanotify event-mask and decision constants of
the binding (the binding module is not among the sources; values follow the
kernel ABI the spec describes).  Permission bits. -/
def FAN_OPEN_PERM : Nat := 0x10000

/-- Modelled from the spec: permission bit for access checks. -/
def FAN_ACCESS_PERM : Nat := 0x20000

/-- Modelled from the spec: permission bit for exec-open checks. -/
def FAN_OPEN_EXEC_PERM : Nat := 0x40000

/-- Modelled from the spec: aggregate mask of all permission events, kept as a
literal the way a header would define it, so that its relation to the three
individual bits is a provable fact rather than a definition. -/
def FAN_ALL_PERM_EVENTS : Nat := 0x70000

/-- Modelled from the spec: decision value ALLOW. -/
def FAN_ALLOW : Nat := 0x01

/-- Modelled from the spec: decision value DENY. -/
def FAN_DENY : Nat := 0x02

/-- Modelled from the spec: decision value AUDIT. -/
def FAN_AUDIT : Nat := 0x10

/-- Modelled from the spec: ordinary (non-permission) event bits used by the
decoder's name table. -/
def FAN_ACCESS : Nat := 0x01

/-- Modelled from the spec: modify event bit. -/
def FAN_MODIFY : Nat := 0x02

/-- Modelled from the spec: close-write event bit. -/
def FAN_CLOSE_WRITE : Nat := 0x08

/-- Modelled from the spec: close-nowrite event bit. -/
def FAN_CLOSE_NOWRITE : Nat := 0x10

/-- Modelled from the spec: open event bit. -/
def FAN_OPEN : Nat := 0x20

/-- Modelled from the spec: open-exec event bit. -/
def FAN_OPEN_EXEC : Nat := 0x1000

/-- Modelled from the spec: the decoder's flag-name table (bit, symbolic name),
in a fixed order; `describe` renders masks by scanning this table, which makes
its output deterministic and order-stable. -/
def evtNames : List (Nat × String) :=
  [(FAN_ACCESS, "access"),
   (FAN_MODIFY, "modify"),
   (FAN_CLOSE_WRITE, "close_write"),
   (FAN_CLOSE_NOWRITE, "close_nowrite"),
   (FAN_OPEN, "open"),
   (FAN_OPEN_EXEC, "open_exec"),
   (FAN_OPEN_PERM, "open_perm"),
   (FAN_ACCESS_PERM, "access_perm"),
   (FAN_OPEN_EXEC_PERM, "open_exec_perm")]

/-- Union of all bits the name table knows. -/
def knownBits : Nat := (evtNames.map Prod.fst).foldr (fun a b => a ||| b) 0

/-- Modelled from the spec: the symbolic tokens of a mask, one per named flag
present, in table order, followed by a numeric fallback token for any unknown
bits (never silently dropped). -/
def evtTokens (mask : Nat) : List String :=
  let named := evtNames.filterMap
    (fun p => if mask &&& p.1 != 0 then some p.2 else none)
  let unknown := mask ^^^ (mask &&& knownBits)
  if unknown != 0 then named ++ [toString unknown] else named

/-- Modelled from the spec: `evt_to_str` (the spec's `describe`) renders a mask
as the pipe-joined list of its symbolic tokens. -/
def evt_to_str (mask : Nat) : String :=
  String.intercalate "|" (evtTokens mask)

/-- Modelled from the spec: name-to-bit lookup, the inverse direction of the
flag-name table. -/
def bitOfName (s : String) : Option Nat :=
  (evtNames.find? (fun p => p.2 == s)).map Prod.fst

/-- Error taxonomy of the monitor, from the spec's section 7. -/
inductive FanError
  | initError
  | configConflict
  | markError
  | invalidDescriptor
  | invalidDecision
  deriving DecidableEq, Repr

/-- Modelled from the spec: a monitor handle records its initialization mode
(identifying-information mode, `init_fid`) and the marks the kernel has
accepted so far. -/
structure MonitorHandle where
  initFid : Bool
  kernelMarks : List (String × Nat)
  deriving DecidableEq, Repr

/-- Modelled from the spec: `mark` validates that the event mask contains no
permission bits when the handle was created in identifying-information mode,
failing with ConfigConflict before any kernel call; otherwise it issues the
kernel mark call.  The returned Bool records whether a kernel call was
attempted. -/
def markK (h : MonitorHandle) (target : String) (evTypes : Nat) :
    Except FanError MonitorHandle × Bool :=
  if h.initFid && (evTypes &&& FAN_ALL_PERM_EVENTS != 0) then
    (Except.error FanError.configConflict, false)
  else
    (Except.ok ⟨h.initFid, h.kernelMarks ++ [(target, evTypes)]⟩, true)

/-- The result component of `markK`. -/
def mark (h : MonitorHandle) (target : String) (evTypes : Nat) :
    Except FanError MonitorHandle :=
  (markK h target evTypes).1

/-- Modelled from the spec: the responder's view of the kernel, the set of
event descriptors that are still open and unanswered.  A successful response
consumes its descriptor. -/
structure RespState where
  openFds : List Int
  deriving DecidableEq, Repr

/-- Modelled from the spec: a decision is accepted exactly when it is ALLOW,
DENY or AUDIT. -/
def validDecision (d : Nat) : Bool :=
  d == FAN_ALLOW || d == FAN_DENY || d == FAN_AUDIT

/-- Modelled from the spec: `response` (the spec's `respond`) checks the
decision value first (InvalidDecision, matching the binding's ValueError for
an out-of-set decision even on a bad descriptor), then the descriptor
(InvalidDescriptor when closed or unknown), and on success writes the decision
back and consumes the descriptor.  A failure returns no new state, so the
caller's handle is untouched. -/
def response (st : RespState) (fd : Int) (decision : Nat) :
    Except FanError RespState :=
  if validDecision decision = false then Except.error FanError.invalidDecision
  else if fd ∈ st.openFds then Except.ok ⟨st.openFds.filter (fun x => x != fd)⟩
  else Except.error FanError.invalidDescriptor

/-- Modelled from the spec: closing an event descriptor removes it from the
open set; closing an unknown descriptor fails. -/
def closeFd (st : RespState) (fd : Int) : Except FanError RespState :=
  if fd ∈ st.openFds then
    Except.ok ⟨st.openFds.filter (fun x => x != fd)⟩
  else Except.error FanError.invalidDescriptor

/-- A decoded event as the scripts consume it: event-type mask, originating
pid, the kernel-attached descriptor, and the alternate descriptor exposed as
`original_fd`. -/
structure DecodedEvent where
  ev_types : Nat
  pid : Nat
  fd : Int
  original_fd : Int
  deriving DecidableEq, Repr

/-- A descriptor-level action an event handler performs, in order. -/
inductive FdAction
  | respond (fd : Int) (decision : Nat)
  | closeFd (fd : Int)
  deriving DecidableEq, Repr

/-- Whether an action trace contains a permission response. -/
def sendsResponse (acts : List FdAction) : Bool :=
  acts.any (fun a => match a with
    | FdAction.respond _ _ => true
    | FdAction.closeFd _ => false)

/-- The per-event body of the monitor loop in deadlock_test.py
(`monitor_process`): respond FAN_ALLOW exactly when the event mask meets
FAN_ALL_PERM_EVENTS; no descriptor is closed there. -/
def handleEventDeadlockTest (e : DecodedEvent) : List FdAction :=
  if e.ev_types &&& FAN_ALL_PERM_EVENTS != 0 then
    [FdAction.respond e.fd FAN_ALLOW]
  else []

/-- The per-event body of the loop in examples/permission_events.py (`run`):
for a permission event, respond FAN_ALLOW on `original_fd`, then always close
`fd` (the try/finally). -/
def handleEventExample (e : DecodedEvent) : List FdAction :=
  if e.ev_types &&& FAN_ALL_PERM_EVENTS != 0 then
    [FdAction.respond e.original_fd FAN_ALLOW, FdAction.closeFd e.fd]
  else []

/-- The per-event body of the loop in safe_permission_test.py
(`test_permission_events_safe`): for a permission event, respond FAN_ALLOW on
`fd`, then (finally) close `fd` when it is non-negative. -/
def handleEventSafe (e : DecodedEvent) : List FdAction :=
  if e.ev_types &&& FAN_ALL_PERM_EVENTS != 0 then
    FdAction.respond e.fd FAN_ALLOW ::
      (if e.fd ≥ 0 then [FdAction.closeFd e.fd] else [])
  else []

/-- Fuelled core of the glob matcher: every recursive call shrinks the
combined length of pattern and subject by at least one, so a fuel of
`pat.length + s.length + 1` is always enough. -/
def globMatchF : Nat → List Char → List Char → Bool
  | 0, _, _ => false
  | fuel + 1, pat, s =>
    match pat, s with
    | [], [] => true
    | [], _ :: _ => false
    | c :: ps, [] =>
        if c == Char.ofNat 42 then globMatchF fuel ps [] else false
    | c :: ps, ch :: ss =>
        if c == Char.ofNat 42 then
          globMatchF fuel ps (ch :: ss) || globMatchF fuel (c :: ps) ss
        else if c == Char.ofNat 63 then globMatchF fuel ps ss
        else c == ch && globMatchF fuel ps ss

/-- Glob matching for the client's `path_pattern` (fnmatch-style: codepoint 42
is the star wildcard for any run of characters, codepoint 63 the single
character wildcard). -/
def globMatch (pat s : List Char) : Bool :=
  globMatchF (pat.length + s.length + 1) pat s

/-- String-level wrapper around `globMatch`. -/
def matchesPattern (pat : String) (path : String) : Bool :=
  globMatch pat.toList path.toList

/-- A raw record drained from the kernel queue, with the path the decoder
resolved for it. -/
structure RawRecord where
  ev_types : Nat
  pid : Nat
  fd : Int
  path : String
  deriving DecidableEq, Repr

/-- What the client does with one drained record: yield it to the caller, or
only acknowledge it (freeing its kernel queue slot without delivery). -/
inductive QueueAction
  | yieldEvt (r : RawRecord)
  | ackOnly (r : RawRecord)
  deriving DecidableEq, Repr

/-- Modelled from the spec: per-record behaviour of `get_events` — a record
whose path matches the pattern is yielded, any other record is still
acknowledged so its queue slot is freed. -/
def processRecord (pat : String) (r : RawRecord) : QueueAction :=
  if matchesPattern pat r.path then QueueAction.yieldEvt r
  else QueueAction.ackOnly r

/-- Modelled from the spec: `get_events` drains every currently queued record
and processes each one against the client's pattern. -/
def get_events (pat : String) (queued : List RawRecord) : List QueueAction :=
  queued.map (processRecord pat)

/-- The records a list of queue actions delivers to the caller. -/
def yieldedRecords (acts : List QueueAction) : List RawRecord :=
  acts.filterMap (fun a => match a with
    | QueueAction.yieldEvt r => some r
    | QueueAction.ackOnly _ => none)

/-- The records whose kernel queue slot a list of queue actions frees: every
processed record frees its slot, whether yielded or only acknowledged. -/
def freedRecords (acts : List QueueAction) : List RawRecord :=
  acts.map (fun a => match a with
    | QueueAction.yieldEvt r => r
    | QueueAction.ackOnly r => r)

/-- Modelled from the spec: the handle's lifecycle states, including a faulted
state reached after a failure. -/
inductive HandleState
  | created
  | marked (n : Nat)
  | started
  | stopped
  | faulted
  deriving DecidableEq, Repr

/-- Modelled from the spec: `stop` releases the kernel group from any state
and always lands in `stopped`. -/
def stop : HandleState → HandleState := fun _ => HandleState.stopped

/-- Modelled from the spec: `mark` is a valid transition only in `created` or
`marked`. -/
def markTrans : HandleState → Option HandleState
  | HandleState.created => some (HandleState.marked 1)
  | HandleState.marked n => some (HandleState.marked (n + 1))
  | _ => none

/-- Instructions of the two-process deadlock model: touching a path marked for
permission events (which blocks the caller until a response arrives), and
running the monitor's event loop (which answers pending permission events and
completes once none remain). -/
inductive Instr
  | touchMarkedPath
  | runLoop
  deriving DecidableEq, Repr

/-- A process: its remaining program and whether it is blocked inside a
permission-pending filesystem call. -/
structure Proc where
  prog : List Instr
  blocked : Bool
  deriving DecidableEq, Repr

/-- The whole system: the processes and the number of pending unanswered
permission events in the kernel. -/
structure Sys where
  procs : List Proc
  pending : Nat
  deriving DecidableEq, Repr

/-- Unblock the first blocked process: its pending filesystem access
completes, so its head instruction is consumed. -/
def unblockFirst : List Proc → List Proc
  | [] => []
  | p :: ps =>
      if p.blocked then ⟨p.prog.tail, false⟩ :: ps
      else p :: unblockFirst ps

/-- Modelled from the spec: one step of process `i`.  A blocked process cannot
act.  Touching a marked path raises a permission event and blocks the caller
until some event loop responds.  The event loop answers one pending event
(unblocking its requester) while any are pending, and completes otherwise. -/
def procStep (s : Sys) (i : Nat) : Option Sys :=
  match s.procs[i]? with
  | none => none
  | some p =>
      if p.blocked then none
      else
        match p.prog with
        | [] => none
        | Instr.touchMarkedPath :: _ =>
            some ⟨s.procs.set i ⟨p.prog, true⟩, s.pending + 1⟩
        | Instr.runLoop :: rest =>
            if s.pending > 0 then
              some ⟨unblockFirst s.procs, s.pending - 1⟩
            else
              some ⟨s.procs.set i ⟨rest, false⟩, s.pending⟩

/-- Deterministic scheduler: the lowest-index process able to act takes the
step. -/
def sysStep (s : Sys) : Option Sys :=
  (List.range s.procs.length).findSome? (procStep s)

/-- Run up to `n` steps (staying put once no step is possible). -/
def runSys : Nat → Sys → Sys
  | 0, s => s
  | n + 1, s =>
      match sysStep s with
      | none => s
      | some t => runSys n t

/-- Every process has completed its program and none is blocked. -/
def allDone (s : Sys) : Bool :=
  s.procs.all (fun p => p.prog.isEmpty && !p.blocked)

/-- Deadlock: no process can take a step, yet the system has not completed. -/
def deadlocked (s : Sys) : Bool :=
  (sysStep s).isNone && !(allDone s)

/-- The scenario of the claim's first half: the monitor runs in the one
process whose own startup path touches a path already marked for permission
events, and only afterwards would reach its event loop. -/
def sameProcessSys : Sys :=
  ⟨[⟨[Instr.touchMarkedPath, Instr.runLoop], false⟩], 0⟩

/-- The scenario of the claim's second half: the accessing process and the
monitor process are disjoint; the monitor's program is just its event loop. -/
def separateProcessSys : Sys :=
  ⟨[⟨[Instr.touchMarkedPath], false⟩, ⟨[Instr.runLoop], false⟩], 0⟩

/-- A system that can take no step stays put for any number of steps. -/
theorem runSys_eq_of_stuck (s : Sys) (h : sysStep s = none) :
    ∀ n, runSys n s = s
  | 0 => rfl
  | _ + 1 => by
      unfold runSys
      rw [h]

/-- A consumed descriptor is no longer a member of the filtered open set. -/
theorem not_mem_filter_self (l : List Int) (fd : Int) :
    fd ∉ l.filter (fun x => x != fd) := by
  intro hmem
  have h2 := (List.mem_filter.mp hmem).2
  simp at h2

/-- Claim C9: the aggregate mask FAN_ALL_PERM_EVENTS equals exactly the
disjunction of FAN_OPEN_PERM, FAN_ACCESS_PERM and FAN_OPEN_EXEC_PERM, and each
individual permission flag and each decision value (FAN_ALLOW, FAN_DENY,
FAN_AUDIT) is a non-zero constant. -/
theorem perm_constants :
    FAN_ALL_PERM_EVENTS =
      (FAN_OPEN_PERM ||| FAN_ACCESS_PERM ||| FAN_OPEN_EXEC_PERM) ∧
    FAN_OPEN_PERM ≠ 0 ∧ FAN_ACCESS_PERM ≠ 0 ∧ FAN_OPEN_EXEC_PERM ≠ 0 ∧
    FAN_ALLOW ≠ 0 ∧ FAN_DENY ≠ 0 ∧ FAN_AUDIT ≠ 0 := by
  decide

/-- Claim C3: for every mask composed of the named permission flags, the token
list of `describe` (evt_to_str) is exactly the names of the flags present, in
a fixed stable order, with no name of an absent flag; and composing the
name-to-bit lookup with `describe` yields the original name back for each
permission flag name. -/
theorem evt_to_str_perm_roundtrip :
    (∀ b1 b2 b3 : Bool,
      evtTokens ((if b1 then FAN_OPEN_PERM else 0) |||
                 (if b2 then FAN_ACCESS_PERM else 0) |||
                 (if b3 then FAN_OPEN_EXEC_PERM else 0)) =
        (if b1 then ["open_perm"] else []) ++
        (if b2 then ["access_perm"] else []) ++
        (if b3 then ["open_exec_perm"] else [])) ∧
    bitOfName "open_perm" = some FAN_OPEN_PERM ∧
    bitOfName "access_perm" = some FAN_ACCESS_PERM ∧
    bitOfName "open_exec_perm" = some FAN_OPEN_EXEC_PERM ∧
    evt_to_str FAN_OPEN_PERM = "open_perm" ∧
    evt_to_str FAN_ACCESS_PERM = "access_perm" ∧
    evt_to_str FAN_OPEN_EXEC_PERM = "open_exec_perm" := by
  decide

/-- Claim C2: marking with any event mask that meets the permission-event
mask, on a handle created in identifying-information mode, fails with
ConfigConflict and attempts no kernel call (the Bool component of `markK`
records whether the kernel was called). -/
theorem mark_perm_with_fid_conflicts (h : MonitorHandle) (target : String)
    (m : Nat) (hfid : h.initFid = true)
    (hperm : m &&& FAN_ALL_PERM_EVENTS ≠ 0) :
    markK h target m = (Except.error FanError.configConflict, false) := by
  unfold markK
  rw [hfid]
  simp [hperm]

/-- Concrete instance of `mark_perm_with_fid_conflicts`: a FID-mode handle and
the FAN_OPEN_PERM mask, as in test_permission_events.py. -/
theorem mark_perm_with_fid_conflicts_witness :
    (⟨true, []⟩ : MonitorHandle).initFid = true ∧
    FAN_OPEN_PERM &&& FAN_ALL_PERM_EVENTS ≠ 0 ∧
    markK ⟨true, []⟩ "/tmp" FAN_OPEN_PERM =
      (Except.error FanError.configConflict, false) :=
  ⟨rfl, by decide,
   mark_perm_with_fid_conflicts ⟨true, []⟩ "/tmp" FAN_OPEN_PERM rfl (by decide)⟩

/-- Claim C8: `stop` is valid from every state of the handle state machine
(created, marked, started, stopped, faulted), always lands in `stopped`, and
is idempotent. -/
theorem stop_idempotent_from_any_state :
    (∀ s : HandleState, stop s = HandleState.stopped) ∧
    (∀ s : HandleState, stop (stop s) = stop s) :=
  ⟨fun _ => rfl, fun _ => rfl⟩

/-- Claim C10: in each of the three event-handling loops of the scripts, a
permission response is sent for an event exactly when the event's type mask
meets FAN_ALL_PERM_EVENTS. -/
theorem respond_iff_perm_mask (e : DecodedEvent) :
    sendsResponse (handleEventDeadlockTest e) =
      (e.ev_types &&& FAN_ALL_PERM_EVENTS != 0) ∧
    sendsResponse (handleEventExample e) =
      (e.ev_types &&& FAN_ALL_PERM_EVENTS != 0) ∧
    sendsResponse (handleEventSafe e) =
      (e.ev_types &&& FAN_ALL_PERM_EVENTS != 0) := by
  refine ⟨?_, ?_, ?_⟩
  · unfold handleEventDeadlockTest
    split <;> simp_all [sendsResponse]
  · unfold handleEventExample
    split <;> simp_all [sendsResponse]
  · unfold handleEventSafe
    split <;> simp_all [sendsResponse]

/-- After its descriptor has been consumed out of the open set, any valid
response on that descriptor fails with InvalidDescriptor. -/
theorem response_after_consume (l : List Int) (fd : Int) (d : Nat)
    (hd : validDecision d = true) :
    response ⟨l.filter (fun x => x != fd)⟩ fd d =
      Except.error FanError.invalidDescriptor := by
  simp [response, hd, List.mem_filter]

/-- Claim C4: `response` fails with InvalidDecision for every decision outside
the accepted set on every descriptor, with InvalidDescriptor for a closed or
unknown descriptor, and on a still-open descriptor a valid decision succeeds
(a failure returns no new state, so the handle remains usable). -/
theorem response_error_taxonomy :
    (∀ (st : RespState) (fd : Int) (d : Nat), validDecision d = false →
        response st fd d = Except.error FanError.invalidDecision) ∧
    (∀ (st : RespState) (fd : Int) (d : Nat), validDecision d = true →
        fd ∉ st.openFds →
        response st fd d = Except.error FanError.invalidDescriptor) ∧
    (∀ (st : RespState) (fd : Int), fd ∈ st.openFds →
        response st fd FAN_ALLOW =
          Except.ok ⟨st.openFds.filter (fun x => x != fd)⟩) := by
  refine ⟨?_, ?_, ?_⟩
  · intro st fd d hd
    simp [response, hd]
  · intro st fd d hd hfd
    simp [response, hd, hfd]
  · intro st fd hfd
    have hv : validDecision FAN_ALLOW = true := by decide
    simp [response, hv, hfd]

/-- Concrete instances of `response_error_taxonomy`: the decision 999 of
test_permission_events.py on descriptor -1, an unknown descriptor with a valid
decision, and a successful ALLOW. -/
theorem response_error_taxonomy_witness :
    validDecision 999 = false ∧
    response ⟨[5]⟩ (-1) 999 = Except.error FanError.invalidDecision ∧
    validDecision FAN_DENY = true ∧ (7 : Int) ∉ (⟨[5]⟩ : RespState).openFds ∧
    response ⟨[5]⟩ 7 FAN_DENY = Except.error FanError.invalidDescriptor ∧
    (5 : Int) ∈ (⟨[5]⟩ : RespState).openFds ∧
    response ⟨[5]⟩ 5 FAN_ALLOW = Except.ok ⟨[]⟩ :=
  ⟨by decide, response_error_taxonomy.1 ⟨[5]⟩ (-1) 999 (by decide),
   by decide, by decide,
   response_error_taxonomy.2.1 ⟨[5]⟩ 7 FAN_DENY (by decide) (by decide),
   by decide,
   response_error_taxonomy.2.2 ⟨[5]⟩ 5 (by decide)⟩

/-- Claim C7: a response is consumed exactly once per descriptor — after one
successful `response` on a descriptor, a second `response` on the same
descriptor fails with InvalidDescriptor. -/
theorem response_consumed_once (st : RespState) (fd : Int) (d : Nat)
    (st2 : RespState) (h : response st fd d = Except.ok st2) :
    response st2 fd d = Except.error FanError.invalidDescriptor := by
  unfold response at h
  split at h
  · exact Except.noConfusion h
  · split at h
    · injection h with h2
      subst h2
      rename_i hd hm
      have hd2 : validDecision d = true := by
        cases hvd : validDecision d
        · exact absurd hvd hd
        · rfl
      exact response_after_consume st.openFds fd d hd2
    · exact Except.noConfusion h

/-- Concrete instance of `response_consumed_once`: descriptor 5 answered once
with ALLOW, answered again. -/
theorem response_consumed_once_witness :
    response ⟨[5]⟩ 5 FAN_ALLOW = Except.ok ⟨[]⟩ ∧
    response ⟨[]⟩ 5 FAN_ALLOW = Except.error FanError.invalidDescriptor :=
  ⟨rfl, response_consumed_once ⟨[5]⟩ 5 FAN_ALLOW ⟨[]⟩ rfl⟩

/-- Claim C5: for every permission-type decoded event, the handler of
safe_permission_test.py performs exactly one respond referencing the event's
kernel descriptor and only afterwards closes it; the handler of
examples/permission_events.py likewise responds (on the event's alternate
descriptor) before any close; and closing a descriptor before responding makes
the response surface as InvalidDescriptor rather than leaving the remote call
blocked without diagnosis. -/
theorem respond_then_close_protocol :
    (∀ e : DecodedEvent, e.ev_types &&& FAN_ALL_PERM_EVENTS ≠ 0 → e.fd ≥ 0 →
        handleEventSafe e =
          [FdAction.respond e.fd FAN_ALLOW, FdAction.closeFd e.fd]) ∧
    (∀ e : DecodedEvent, e.ev_types &&& FAN_ALL_PERM_EVENTS ≠ 0 →
        handleEventExample e =
          [FdAction.respond e.original_fd FAN_ALLOW, FdAction.closeFd e.fd]) ∧
    (∀ (st st2 : RespState) (fd : Int), closeFd st fd = Except.ok st2 →
        response st2 fd FAN_ALLOW = Except.error FanError.invalidDescriptor) := by
  refine ⟨?_, ?_, ?_⟩
  · intro e hperm hfd
    simp [handleEventSafe, bne_iff_ne, hperm, hfd]
  · intro e hperm
    simp [handleEventExample, bne_iff_ne, hperm]
  · intro st st2 fd h
    unfold closeFd at h
    split at h
    · injection h with h2
      subst h2
      exact response_after_consume st.openFds fd FAN_ALLOW (by decide)
    · exact Except.noConfusion h

/-- Concrete instance of `respond_then_close_protocol`: an OPEN_PERM event
with descriptor 5 and alternate descriptor 6, and a close-then-respond
attempt on descriptor 5. -/
theorem respond_then_close_protocol_witness :
    (⟨FAN_OPEN_PERM, 1234, 5, 6⟩ : DecodedEvent).ev_types &&&
        FAN_ALL_PERM_EVENTS ≠ 0 ∧
    (⟨FAN_OPEN_PERM, 1234, 5, 6⟩ : DecodedEvent).fd ≥ 0 ∧
    handleEventSafe ⟨FAN_OPEN_PERM, 1234, 5, 6⟩ =
      [FdAction.respond 5 FAN_ALLOW, FdAction.closeFd 5] ∧
    handleEventExample ⟨FAN_OPEN_PERM, 1234, 5, 6⟩ =
      [FdAction.respond 6 FAN_ALLOW, FdAction.closeFd 5] ∧
    closeFd ⟨[5]⟩ 5 = Except.ok ⟨[]⟩ ∧
    response ⟨[]⟩ 5 FAN_ALLOW = Except.error FanError.invalidDescriptor :=
  ⟨by decide, by decide,
   respond_then_close_protocol.1 ⟨FAN_OPEN_PERM, 1234, 5, 6⟩ (by decide)
     (by decide),
   respond_then_close_protocol.2.1 ⟨FAN_OPEN_PERM, 1234, 5, 6⟩ (by decide),
   rfl,
   respond_then_close_protocol.2.2 ⟨[5]⟩ ⟨[]⟩ 5 rfl⟩

/-- The records yielded by `get_events` are exactly the queued records whose
path matches the pattern, in queue order. -/
theorem yielded_get_events (pat : String) (queued : List RawRecord) :
    yieldedRecords (get_events pat queued) =
      queued.filter (fun r => matchesPattern pat r.path) := by
  unfold yieldedRecords get_events
  induction queued with
  | nil => rfl
  | cons a l ih =>
      rw [List.map_cons, List.filterMap_cons, List.filter_cons]
      by_cases hp : matchesPattern pat a.path = true
      · have hpr : processRecord pat a = QueueAction.yieldEvt a := by
          unfold processRecord
          rw [if_pos hp]
        rw [hpr, if_pos hp]
        exact congrArg (List.cons a) ih
      · have hpr : processRecord pat a = QueueAction.ackOnly a := by
          unfold processRecord
          rw [if_neg hp]
        rw [hpr, if_neg hp]
        exact ih

/-- `get_events` frees the kernel queue slot of every record it drains,
matching or not. -/
theorem freedRecords_get_events (pat : String) (queued : List RawRecord) :
    freedRecords (get_events pat queued) = queued := by
  unfold freedRecords get_events
  induction queued with
  | nil => rfl
  | cons a l ih =>
      rw [List.map_cons, List.map_cons]
      by_cases hp : matchesPattern pat a.path = true
      · have hpr : processRecord pat a = QueueAction.yieldEvt a := by
          unfold processRecord
          rw [if_pos hp]
        rw [hpr]
        exact congrArg (List.cons a) ih
      · have hpr : processRecord pat a = QueueAction.ackOnly a := by
          unfold processRecord
          rw [if_neg hp]
        rw [hpr]
        exact congrArg (List.cons a) ih

/-- Claim C6: `get_events` never yields a record whose path fails the client's
pattern; the queue slot of every drained record, matching or not, is freed;
and a matching record is still delivered after any prefix of non-matching
records. -/
theorem get_events_filter_and_ack :
    (∀ (pat : String) (queued : List RawRecord) (r : RawRecord),
        r ∈ yieldedRecords (get_events pat queued) →
        matchesPattern pat r.path = true) ∧
    (∀ (pat : String) (queued : List RawRecord) (r : RawRecord),
        r ∈ queued → r ∈ freedRecords (get_events pat queued)) ∧
    (∀ (pat : String) (pre : List RawRecord) (r : RawRecord),
        matchesPattern pat r.path = true →
        r ∈ yieldedRecords (get_events pat (pre ++ [r]))) := by
  refine ⟨?_, ?_, ?_⟩
  · intro pat queued r h
    rw [yielded_get_events] at h
    exact (List.mem_filter.mp h).2
  · intro pat queued r h
    rw [freedRecords_get_events]
    exact h
  · intro pat pre r hp
    rw [yielded_get_events, List.filter_append]
    refine List.mem_append.mpr (Or.inr ?_)
    simp [List.filter_cons, hp]

/-- Concrete instance of `get_events_filter_and_ack`: pattern matching only
txt paths, a non-matching record ahead of a matching one in the queue. -/
theorem get_events_filter_and_ack_witness :
    (⟨FAN_OPEN_PERM, 2, 4, "b.txt"⟩ : RawRecord) ∈
      yieldedRecords (get_events "*.txt"
        [⟨FAN_OPEN_PERM, 1, 3, "a.log"⟩, ⟨FAN_OPEN_PERM, 2, 4, "b.txt"⟩]) ∧
    matchesPattern "*.txt" (⟨FAN_OPEN_PERM, 2, 4, "b.txt"⟩ : RawRecord).path =
      true ∧
    (⟨FAN_OPEN_PERM, 1, 3, "a.log"⟩ : RawRecord) ∈
      [(⟨FAN_OPEN_PERM, 1, 3, "a.log"⟩ : RawRecord),
       ⟨FAN_OPEN_PERM, 2, 4, "b.txt"⟩] ∧
    (⟨FAN_OPEN_PERM, 1, 3, "a.log"⟩ : RawRecord) ∈
      freedRecords (get_events "*.txt"
        [⟨FAN_OPEN_PERM, 1, 3, "a.log"⟩, ⟨FAN_OPEN_PERM, 2, 4, "b.txt"⟩]) ∧
    (⟨FAN_OPEN_PERM, 2, 4, "b.txt"⟩ : RawRecord) ∈
      yieldedRecords (get_events "*.txt"
        ([⟨FAN_OPEN_PERM, 1, 3, "a.log"⟩] ++ [⟨FAN_OPEN_PERM, 2, 4, "b.txt"⟩])) :=
  ⟨by decide,
   get_events_filter_and_ack.1 "*.txt"
     [⟨FAN_OPEN_PERM, 1, 3, "a.log"⟩, ⟨FAN_OPEN_PERM, 2, 4, "b.txt"⟩]
     ⟨FAN_OPEN_PERM, 2, 4, "b.txt"⟩ (by decide),
   by decide,
   get_events_filter_and_ack.2.1 "*.txt"
     [⟨FAN_OPEN_PERM, 1, 3, "a.log"⟩, ⟨FAN_OPEN_PERM, 2, 4, "b.txt"⟩]
     ⟨FAN_OPEN_PERM, 1, 3, "a.log"⟩ (by decide),
   get_events_filter_and_ack.2.2 "*.txt" [⟨FAN_OPEN_PERM, 1, 3, "a.log"⟩]
     ⟨FAN_OPEN_PERM, 2, 4, "b.txt"⟩ (by decide)⟩

/-- Claim C1: when the monitor runs in the one process whose own startup path
touches a path already marked for permission events, the run deadlocks (after
the blocking touch no step is ever possible and the system never completes);
when the monitor runs in a process disjoint from the accessing process, no
reachable state is deadlocked and the run completes, the monitor loop
included. -/
theorem isolation_deadlock :
    deadlocked (runSys 1 sameProcessSys) = true ∧
    (∀ n : Nat, allDone (runSys n sameProcessSys) = false) ∧
    (∀ n : Nat, deadlocked (runSys n separateProcessSys) = false) ∧
    allDone (runSys 3 separateProcessSys) = true := by
  refine ⟨by decide, ?_, ?_, by decide⟩
  · intro n
    match n with
    | 0 => decide
    | m + 1 =>
        have h1 : runSys (m + 1) sameProcessSys =
            runSys m
              (⟨[⟨[Instr.touchMarkedPath, Instr.runLoop], true⟩], 1⟩ : Sys) :=
          rfl
        rw [h1, runSys_eq_of_stuck _ (by decide)]
        decide
  · intro n
    match n with
    | 0 => decide
    | 1 => decide
    | 2 => decide
    | m + 3 =>
        have h1 : runSys (m + 3) separateProcessSys =
            runSys m (⟨[⟨[], false⟩, ⟨[], false⟩], 0⟩ : Sys) := rfl
        rw [h1, runSys_eq_of_stuck _ (by decide)]
        decide

end Pyfanotify
